import Mathlib

/-!
Verification of the poll voting/state engine of super-simple-poll.

The Python source (`models.py`, `poll_service.py`, `app.py`) is embedded
shallowly: SQLAlchemy rows become structures, the session-backed store becomes
a `List Poll`, the service functions become pure functions returning the
`(success, message)` pair together with the updated store, and `datetime`
values become natural numbers.  Dictionaries with optional keys are modelled
as structures whose conditional fields have `Option` type (`none` = key
absent).
-/

namespace SuperSimplePoll

/-- A poll option row (`models.PollOption`): its uuid primary key is modelled as
a string id, generated inside a poll as the option's position index, which is
fresh within the poll just as a uuid is. -/
structure PollOption where
  id : String
  text : String
  deriving DecidableEq

/-- A vote row (`models.Vote`).  The uuid primary key and the timestamp column
play no role in the claims; deleting one specific Vote row is modelled as
erasing one occurrence of the equal record. -/
structure Vote where
  user_id : String
  user_name : String
  option_id : String
  deriving DecidableEq

/-- The poll aggregate: the polls row (`models.Poll`) together with its options
and every Vote row reachable through them — the collection the service code
manipulates. -/
structure Poll where
  id : String
  question : String
  creator_id : String
  created_at : Nat
  allow_multiple_votes : Bool
  hide_votes : Bool
  hide_vote_count : Bool
  deadline : Option Nat
  closed : Bool
  channel_id : Option String
  message_ts : Option String
  options : List PollOption
  votes : List Vote
  deriving DecidableEq

/-- `models.Poll.__init__` (models.py lines 37-53): every field is assigned
directly from the arguments.  The normalization of `hide_vote_count` against
`hide_votes` is commented out in the source ("we no longer need this
constraint") and is therefore absent here.  A fresh poll owns no options and
no votes. -/
def Poll.init (id question creator_id : String) (created_at : Nat)
    (allow_multiple_votes hide_votes hide_vote_count : Bool)
    (deadline : Option Nat) (closed : Bool)
    (channel_id message_ts : Option String) : Poll :=
  { id := id, question := question, creator_id := creator_id,
    created_at := created_at, allow_multiple_votes := allow_multiple_votes,
    hide_votes := hide_votes, hide_vote_count := hide_vote_count,
    deadline := deadline, closed := closed, channel_id := channel_id,
    message_ts := message_ts, options := [], votes := [] }

/-- `models.Poll.add_option` (models.py lines 55-61): appends a new PollOption;
the uuid4 id is modelled as the option's index within the poll. -/
def Poll.add_option (p : Poll) (text : String) : Poll :=
  { p with options := p.options ++ [{ id := toString p.options.length, text := text }] }

/-- `models.Poll.get_votes_for_option` (models.py lines 63-72): all votes of
this poll for the given option. -/
def Poll.get_votes_for_option (p : Poll) (option_id : String) : List Vote :=
  p.votes.filter (fun v => v.option_id == option_id)

/-- `models.get_poll_by_id` (models.py lines 149-152): the first stored poll
with the given id. -/
def get_poll_by_id (store : List Poll) (poll_id : String) : Option Poll :=
  store.find? (fun p => p.id == poll_id)

/-- Mutating the session object returned by `get_poll_by_id` updates that
stored row in place: replace the first poll with the given id. -/
def update_poll : List Poll → String → Poll → List Poll
  | [], _, _ => []
  | p :: ps, poll_id, q =>
      if p.id == poll_id then q :: ps else p :: update_poll ps poll_id q

/-- `PollService.create_poll` (poll_service.py lines 10-50): builds the Poll
(the function has no `hide_vote_count` parameter, so that column takes its
default `false`), appends every option text via `add_option`, and saves.  No
validation of the question or of the options is performed.  The uuid poll id
and the creation timestamp are passed explicitly. -/
def create_poll (question creator_id : String) (options : List String)
    (allow_multiple_votes hide_votes : Bool) (deadline : Option Nat)
    (channel_id : Option String) (id : String) (created_at : Nat) : Poll :=
  options.foldl Poll.add_option
    (Poll.init id question creator_id created_at allow_multiple_votes hide_votes
      false deadline false channel_id none)

/-- The vote decision written at poll_service.py lines 77-106, read as if
`poll.votes` yielded the poll's vote rows.  Actual execution never reaches
this logic: evaluating `poll.votes` at line 78 raises AttributeError first,
and the `delete_vote`/`save_vote` helper calls below it would raise TypeError
(see `add_vote_exec`, whose dead counterfactual branch this function is, and
C3).  It records what lines 77-106 evidently intend:

* not multi-vote and the user has votes: on the same option, delete every vote
  of the user on that option and report removal; on a different option, delete
  every vote of the user and fall through to the insertion;
* otherwise: if a vote of the user on this option exists, delete that one vote
  and report removal, else fall through to the insertion. -/
def add_vote_decide (poll : Poll) (user_id user_name option_id : String) :
    (Bool × String) × List Vote :=
  let user_votes := poll.votes.filter (fun v => v.user_id == user_id)
  if !poll.allow_multiple_votes && !user_votes.isEmpty then
    if user_votes.any (fun v => v.option_id == option_id) then
      ((true, "Vote removed"),
        poll.votes.filter (fun v => !(v.user_id == user_id && v.option_id == option_id)))
    else
      ((true, "Vote added"),
        poll.votes.filter (fun v => !(v.user_id == user_id)) ++
          [{ user_id := user_id, user_name := user_name, option_id := option_id }])
  else
    match user_votes.find? (fun v => v.option_id == option_id) with
    | some existing_vote =>
        ((true, "Vote removed"), poll.votes.erase existing_vote)
    | none =>
        ((true, "Vote added"),
          poll.votes ++ [{ user_id := user_id, user_name := user_name, option_id := option_id }])

/-- `PollService.add_vote` (poll_service.py lines 52-106) over the store, with
the recording path read counterfactually as in `add_vote_decide`: look the
poll up, answer "Poll not found" / "Poll is closed" / "Option not found" when
the checks fail, otherwise apply the vote decision and store the poll's new
vote list.  As executed, the branch past the three checks raises instead of
returning; `add_vote_exec` models the real behaviour and uses this function
only as its unreachable would-be branch. -/
def add_vote (store : List Poll) (poll_id user_id user_name option_id : String) :
    (Bool × String) × List Poll :=
  match get_poll_by_id store poll_id with
  | none => ((false, "Poll not found"), store)
  | some poll =>
    if poll.closed then ((false, "Poll is closed"), store)
    else if !poll.options.any (fun o => o.id == option_id) then
      ((false, "Option not found"), store)
    else
      let r := add_vote_decide poll user_id user_name option_id
      (r.1, update_poll store poll_id { poll with votes := r.2 })

/-- `PollService.close_poll` (poll_service.py lines 108-132). -/
def close_poll (store : List Poll) (poll_id user_id : String) :
    (Bool × String) × List Poll :=
  match get_poll_by_id store poll_id with
  | none => ((false, "Poll not found"), store)
  | some poll =>
    if poll.closed then ((false, "Poll is already closed"), store)
    else if poll.creator_id != user_id then
      ((false, "Only the poll creator can close this poll"), store)
    else
      ((true, "Poll closed successfully"),
        update_poll store poll_id { poll with closed := true })

/-- One entry of the results dictionary for an option (poll_service.py lines
158-173).  `voters = none` models the "voters" key being absent; the "count"
key is always written by the source, so `count` is a plain number. -/
structure OptionResult where
  id : String
  text : String
  count : Nat
  voters : Option (List (String × String))
  deriving DecidableEq

/-- The results dictionary of `get_poll_results` (poll_service.py lines
149-156). -/
structure Results where
  question : String
  creator_id : String
  created_at : Nat
  closed : Bool
  hide_votes : Bool
  options : List OptionResult
  deriving DecidableEq

/-- The per-option result entries, one per option in definition order
(poll_service.py lines 158-173): the option's vote count, and the voter
identity+name pairs attached only when `hide_votes` is false. -/
def poll_option_results (poll : Poll) : List OptionResult :=
  poll.options.map (fun option =>
    let votes := poll.get_votes_for_option option.id
    { id := option.id, text := option.text, count := votes.length,
      voters :=
        if !poll.hide_votes then
          some (votes.map (fun v => (v.user_id, v.user_name)))
        else none })

/-- The results-dictionary construction of `PollService.get_poll_results`
(poll_service.py lines 149-178): the header fields plus the per-option entries
sorted by vote count descending.  Python's `list.sort(key, reverse=True)` is a
stable sort that keeps ties in their original order, exactly as
`List.mergeSort` does. -/
def poll_results (poll : Poll) : Results :=
  { question := poll.question, creator_id := poll.creator_id,
    created_at := poll.created_at, closed := poll.closed,
    hide_votes := poll.hide_votes,
    options :=
      (poll_option_results poll).mergeSort (fun a b => decide (b.count ≤ a.count)) }

/-- `PollService.get_poll_results` (poll_service.py lines 134-178): `None` when
the poll id is unknown, otherwise the results dictionary.  The function only
reads the store. -/
def get_poll_results (store : List Poll) (poll_id : String) : Option Results :=
  match get_poll_by_id store poll_id with
  | none => none
  | some poll => some (poll_results poll)

/-- Whether a poll row passes the SQL filter `deadline < now AND closed = false`
(models.py line 87).  A NULL deadline makes the comparison NULL, which the
filter rejects, so a poll without deadline is never expired. -/
def expired_open (p : Poll) (now : Nat) : Bool :=
  (match p.deadline with
   | some d => decide (d < now)
   | none => false) && !p.closed

/-- `models.Poll.get_expired_polls` (models.py lines 82-87). -/
def get_expired_polls (store : List Poll) (now : Nat) : List Poll :=
  store.filter (fun p => expired_open p now)

/-- One tick of the background sweeper `app.check_expired_polls` (app.py lines
58-87): every poll returned by `get_expired_polls` gets `closed` set to true
and is saved; the Slack message updates are side effects outside the model. -/
def check_expired_polls_tick (store : List Poll) (now : Nat) : List Poll :=
  store.map (fun p => if expired_open p now then { p with closed := true } else p)

/-- Option parsing in `app.handle_poll_submission` (app.py line 411): split the
textarea content on newlines, keep the lines that are non-blank after
stripping, and strip them. -/
def parse_option_texts (options_text : String) : List String :=
  ((options_text.splitOn "\n").filter (fun opt => opt.trim != "")).map String.trim

/-- Settings normalization in `app.handle_poll_submission` (app.py lines
406-408): `hide_vote_count` is forced to false when `hide_votes` is false. -/
def normalize_hide_vote_count (hide_votes hide_vote_count : Bool) : Bool :=
  if hide_votes == false && hide_vote_count == true then false
  else hide_vote_count

/-- The Poll constructed by `app.handle_poll_submission` (app.py lines
390-429): normalized settings, parsed option lines, and no validation of the
question or of the option count. -/
def handle_poll_submission_poll (question creator_id options_text : String)
    (allow_multiple_votes hide_votes hide_vote_count : Bool)
    (deadline : Option Nat) (channel_id : Option String)
    (id : String) (created_at : Nat) : Poll :=
  (parse_option_texts options_text).foldl Poll.add_option
    (Poll.init id question creator_id created_at allow_multiple_votes hide_votes
      (normalize_hide_vote_count hide_votes hide_vote_count) deadline false
      channel_id none)

/-- The attribute names the `models.Poll` class defines (columns, relationships
and methods, models.py lines 17-87).  There is no `votes` attribute: `Poll`
only has the `options` relationship, and votes hang off `PollOption.votes`. -/
def poll_class_attrs : List String :=
  ["id", "question", "creator_id", "created_at", "allow_multiple_votes",
   "hide_votes", "hide_vote_count", "deadline", "closed", "channel_id",
   "message_ts", "options", "add_option", "get_votes_for_option",
   "get_total_participants", "get_expired_polls"]

/-- `PollService.add_vote` as Python actually executes it: after the lookup,
closed and option checks succeed, line 78 evaluates `poll.votes`; the Poll
class defines no `votes` attribute, so the interpreter raises AttributeError,
modelled as the `error` branch.  (Were the attribute present, execution would
continue as `add_vote`; the `delete_vote(poll, vote)` and `save_vote(poll,
vote)` helper calls at lines 86, 91, 100 and 105 would then still raise
TypeError, because `models.delete_vote` takes a single argument and
`models.save_vote` subscripts its second argument as a dict.) -/
def add_vote_exec (store : List Poll) (poll_id user_id user_name option_id : String) :
    Except String ((Bool × String) × List Poll) :=
  match get_poll_by_id store poll_id with
  | none => .ok ((false, "Poll not found"), store)
  | some poll =>
    if poll.closed then .ok ((false, "Poll is closed"), store)
    else if !poll.options.any (fun o => o.id == option_id) then
      .ok ((false, "Option not found"), store)
    else if poll_class_attrs.contains "votes" then
      .ok (add_vote store poll_id user_id user_name option_id)
    else
      .error "AttributeError: Poll object has no attribute votes"

/-- The votes a given user holds in a vote list. -/
def votesBy (votes : List Vote) (u : String) : List Vote :=
  votes.filter (fun v => v.user_id == u)

/-- The votes a given user holds on a given option in a vote list. -/
def votesFor (votes : List Vote) (u o : String) : List Vote :=
  votes.filter (fun v => v.user_id == u && v.option_id == o)

/-- One inbound vote request (poll id, voter id, voter display name, option
id). -/
structure VoteReq where
  poll_id : String
  user_id : String
  user_name : String
  option_id : String

/-- The store after one `add_vote` call as Python executes it: the three
failure answers return without touching the store, and the AttributeError
raised at line 78 propagates before any deletion or insertion, so an erroring
call leaves the store unchanged as well. -/
def add_vote_exec_store (store : List Poll)
    (poll_id user_id user_name option_id : String) : List Poll :=
  match add_vote_exec store poll_id user_id user_name option_id with
  | .ok r => r.2
  | .error _ => store

/-- Fold a sequence of vote requests through `add_vote` as executed, keeping
the store. -/
def run_votes_exec (store : List Poll) (reqs : List VoteReq) : List Poll :=
  reqs.foldl
    (fun s r => add_vote_exec_store s r.poll_id r.user_id r.user_name r.option_id) store

/-- A vote by the given user, with display name "n", on the given option. -/
def mkVote (u o : String) : Vote := { user_id := u, user_name := "n", option_id := o }

/-- A concrete open single-vote poll with two options and no votes. -/
def pollFresh : Poll :=
  { id := "p1", question := "Q", creator_id := "c", created_at := 0,
    allow_multiple_votes := false, hide_votes := false, hide_vote_count := false,
    deadline := none, closed := false, channel_id := none, message_ts := none,
    options := [{ id := "o1", text := "A" }, { id := "o2", text := "B" }],
    votes := [] }

/-- A concrete poll whose options A, B, C (defined in that order) hold 3, 5 and
3 votes. -/
def pollABC : Poll :=
  { id := "p8", question := "Q", creator_id := "c", created_at := 0,
    allow_multiple_votes := true, hide_votes := false, hide_vote_count := false,
    deadline := none, closed := false, channel_id := none, message_ts := none,
    options := [{ id := "A", text := "A" }, { id := "B", text := "B" },
                { id := "C", text := "C" }],
    votes := [mkVote "u1" "A", mkVote "u2" "A", mkVote "u3" "A",
              mkVote "u1" "B", mkVote "u2" "B", mkVote "u3" "B",
              mkVote "u4" "B", mkVote "u5" "B",
              mkVote "u1" "C", mkVote "u2" "C", mkVote "u3" "C"] }

/-- `pollABC` with the vote count flagged as hidden. -/
def pollABChidden : Poll := { pollABC with hide_vote_count := true }

/-- Sweeper scenario, with `now = 100`: an open poll one second past its
deadline. -/
def pollPast : Poll := { pollFresh with id := "past", deadline := some 99 }

/-- Sweeper scenario, with `now = 100`: an open poll whose deadline is one hour
ahead. -/
def pollFuture : Poll := { pollFresh with id := "future", deadline := some 3700 }

/-!  Helper lemmas about the store. -/

theorem get_poll_by_id_beq {store : List Poll} {pid : String} {p : Poll}
    (h : get_poll_by_id store pid = some p) : (p.id == pid) = true := by
  have h' : List.find? (fun q => q.id == pid) store = some p := h
  simpa using List.find?_some h'

theorem get_poll_by_id_update (pid : String) (q : Poll) (hq : (q.id == pid) = true) :
    ∀ (store : List Poll) (p : Poll), get_poll_by_id store pid = some p →
      get_poll_by_id (update_poll store pid q) pid = some q
  | [], p, h => by simp [get_poll_by_id] at h
  | a :: t, p, h => by
    by_cases ha : (a.id == pid) = true
    · simp [update_poll, ha, get_poll_by_id, List.find?, hq]
    · have h' : get_poll_by_id t pid = some p := by
        simpa [get_poll_by_id, List.find?, ha] using h
      have ih := get_poll_by_id_update pid q hq t p h'
      simpa [update_poll, ha, get_poll_by_id, List.find?] using ih

/-!  Helper lemmas about option insertion during creation. -/

theorem foldl_add_option_eq (opts : List String) :
    ∀ p : Poll, opts.foldl Poll.add_option p
      = { p with options := (opts.foldl Poll.add_option p).options } := by
  induction opts with
  | nil => intro p; rfl
  | cons a t ih =>
    intro p
    rw [List.foldl_cons, ih (p.add_option a)]
    rfl

theorem foldl_add_option_texts (opts : List String) :
    ∀ p : Poll, (opts.foldl Poll.add_option p).options.map PollOption.text
      = p.options.map PollOption.text ++ opts := by
  induction opts with
  | nil => intro p; simp
  | cons a t ih =>
    intro p
    rw [List.foldl_cons, ih (p.add_option a)]
    simp [Poll.add_option]

theorem handle_poll_submission_poll_fields (q c t : String) (amv hv hvc : Bool)
    (dl : Option Nat) (ch : Option String) (idv : String) (ts : Nat) :
    (handle_poll_submission_poll q c t amv hv hvc dl ch idv ts).hide_vote_count
        = normalize_hide_vote_count hv hvc
      ∧ (handle_poll_submission_poll q c t amv hv hvc dl ch idv ts).hide_votes = hv
      ∧ (handle_poll_submission_poll q c t amv hv hvc dl ch idv ts).options.map PollOption.text
        = parse_option_texts t
      ∧ (handle_poll_submission_poll q c t amv hv hvc dl ch idv ts).question = q
      ∧ (handle_poll_submission_poll q c t amv hv hvc dl ch idv ts).closed = false := by
  refine ⟨?_, ?_, ?_, ?_, ?_⟩
  · rw [handle_poll_submission_poll, foldl_add_option_eq]; rfl
  · rw [handle_poll_submission_poll, foldl_add_option_eq]; rfl
  · rw [handle_poll_submission_poll, foldl_add_option_texts]
    rfl
  · rw [handle_poll_submission_poll, foldl_add_option_eq]; rfl
  · rw [handle_poll_submission_poll, foldl_add_option_eq]; rfl

/-!  The claims. -/

/-- As executed, one `add_vote` call never mutates the store: each failure
answer returns it unchanged and the recording path raises at line 78 before
any deletion or insertion. -/
theorem add_vote_exec_store_eq (store : List Poll) (pid u n o : String) :
    add_vote_exec_store store pid u n o = store := by
  have hattr : "votes" ∉ poll_class_attrs := by decide
  unfold add_vote_exec_store add_vote_exec
  cases hg : get_poll_by_id store pid with
  | none => rfl
  | some poll =>
    by_cases hc : poll.closed = true
    · simp [hc]
    · by_cases ho : (!poll.options.any (fun oo => oo.id == o)) = true
      · simp [hc, ho]
      · simp [hc, ho, hattr]

/-- As executed, no sequence of `add_vote` calls ever changes the store. -/
theorem run_votes_exec_eq (reqs : List VoteReq) :
    ∀ store : List Poll, run_votes_exec store reqs = store := by
  induction reqs with
  | nil => intro s; rfl
  | cons r t ih =>
    intro s
    have hstep : run_votes_exec s (r :: t)
        = run_votes_exec
            (add_vote_exec_store s r.poll_id r.user_id r.user_name r.option_id) t := by
      simp [run_votes_exec]
    rw [hstep, add_vote_exec_store_eq]
    exact ih s

/-- C1 (documenting the code bug): as Python executes it, `add_vote` never
mutates the store — the failure answers return it unchanged and the recording
path raises AttributeError at poll_service.py line 78 before any deletion or
insertion — so after any sequence of `add_vote` calls every poll keeps its
initial vote set.  From creation states (no votes) every poll therefore still
holds zero votes: the claimed at-most-one-vote-per-(voter, option) and
per-voter bounds hold only vacuously, and the claimed reachable state of a
multi-vote voter holding votes on several distinct options never occurs. -/
theorem C1_no_vote_ever_recorded (store : List Poll)
    (hinit : ∀ p ∈ store, p.votes = []) (reqs : List VoteReq) :
    run_votes_exec store reqs = store ∧
    (∀ p ∈ run_votes_exec store reqs,
      p.votes = [] ∧ (∀ u o, (votesFor p.votes u o).length ≤ 1) ∧
        (∀ u, (votesBy p.votes u).length = 0)) := by
  refine ⟨run_votes_exec_eq reqs store, fun p hp => ?_⟩
  rw [run_votes_exec_eq reqs store] at hp
  have hv := hinit p hp
  exact ⟨hv, fun u o => by simp [votesFor, hv], fun u => by simp [votesBy, hv]⟩

/-- Witness for C1 on a concrete store and request sequence. -/
theorem C1_no_vote_ever_recorded_witness :
    run_votes_exec [pollFresh] [⟨"p1", "u", "n", "o1"⟩, ⟨"p1", "u", "n", "o1"⟩]
      = [pollFresh] :=
  (C1_no_vote_ever_recorded [pollFresh] (by decide)
    [⟨"p1", "u", "n", "o1"⟩, ⟨"p1", "u", "n", "o1"⟩]).1

/-- C3 (against the claim, documenting the code bug): precisely when a vote
would have to be recorded — the poll exists, is open and the option exists —
`add_vote` as Python executes it raises AttributeError at `poll.votes`
(poll_service.py line 78) instead of returning a `(success, message)`
outcome. -/
theorem C3_add_vote_raises (store : List Poll) (pid u n o : String) (poll : Poll)
    (hfind : get_poll_by_id store pid = some poll) (hopen : poll.closed = false)
    (hopt : (poll.options.any (fun oo => oo.id == o)) = true) :
    add_vote_exec store pid u n o
      = Except.error "AttributeError: Poll object has no attribute votes" := by
  have hattr : "votes" ∉ poll_class_attrs := by decide
  unfold add_vote_exec
  rw [hfind]
  simp [hopen, hopt, hattr]

/-- Witness for C3 at a concrete open poll with an existing option. -/
theorem C3_add_vote_raises_witness :
    add_vote_exec [pollFresh] "p1" "u" "n" "o1"
      = Except.error "AttributeError: Poll object has no attribute votes" :=
  C3_add_vote_raises [pollFresh] "p1" "u" "n" "o1" pollFresh (by decide) (by decide)
    (by decide)

/-- C5 counterexample: `create_poll` with the claimed failing input
`("Q?", "u1", ["  ", "A"], …)` does not fail at all — the function has no
failure outcome — and creates the poll, keeping even the blank option text
verbatim (no trimming, no minimum-count check). -/
theorem C5_counterexample :
    (create_poll "Q?" "u1" ["  ", "A"] false false none none "p" 0).options.map
        PollOption.text = ["  ", "A"] ∧
      (create_poll "Q?" "u1" ["  ", "A"] false false none none "p" 0).closed = false ∧
      (create_poll "Q?" "u1" ["  ", "A"] false false none none "p" 0).question = "Q?" := by
  refine ⟨?_, by decide, by decide⟩
  rw [create_poll, foldl_add_option_texts]
  decide

/-- C5 amended: `create_poll` performs no validation: for every question and
option-text list (empty question and fewer than two usable options included)
it returns a poll carrying exactly the given texts, and no `InvalidInput`
outcome exists.  The submission handler trims lines and drops blank ones
before constructing the poll, but likewise never rejects a low option
count. -/
theorem C5_no_validation (question creator_id : String) (options : List String)
    (amv hv : Bool) (dl : Option Nat) (ch : Option String) (idv : String) (ts : Nat)
    (t : String) :
    (create_poll question creator_id options amv hv dl ch idv ts).question = question ∧
    (create_poll question creator_id options amv hv dl ch idv ts).options.map
      PollOption.text = options ∧
    (create_poll question creator_id options amv hv dl ch idv ts).closed = false ∧
    (create_poll question creator_id options amv hv dl ch idv ts).votes = [] ∧
    (handle_poll_submission_poll question creator_id t amv hv false dl ch idv ts).options.map
      PollOption.text = parse_option_texts t ∧
    (handle_poll_submission_poll question creator_id t amv hv false dl ch idv ts).closed
      = false := by
  refine ⟨?_, ?_, ?_, ?_, ?_, ?_⟩
  · rw [create_poll, foldl_add_option_eq]; rfl
  · rw [create_poll, foldl_add_option_texts]; rfl
  · rw [create_poll, foldl_add_option_eq]; rfl
  · rw [create_poll, foldl_add_option_eq]; rfl
  · exact (handle_poll_submission_poll_fields question creator_id t amv hv false dl ch idv ts).2.2.1
  · exact (handle_poll_submission_poll_fields question creator_id t amv hv false dl ch idv ts).2.2.2.2

/-- C6 counterexample: `Poll.__init__` performs no normalization — constructing
a Poll with `hide_votes = false` and `hide_vote_count = true` yields exactly
that combination, violating `hideVoteCount ⇒ hideVotes`. -/
theorem C6_counterexample :
    (Poll.init "p" "Q" "u" 0 false false true none false none none).hide_vote_count = true ∧
    (Poll.init "p" "Q" "u" 0 false false true none false none none).hide_votes = false := by
  decide

/-- C6 amended: the invariant `hideVoteCount ⇒ hideVotes` holds for every poll
built through the app submission handler (which normalizes the settings before
constructing the Poll) and for every poll built by `PollService.create_poll`
(which cannot set `hide_vote_count` at all); `Poll.__init__` itself does not
enforce it. -/
theorem C6_submission_normalizes (question creator_id t : String)
    (amv hv hvc : Bool) (dl : Option Nat) (ch : Option String) (idv : String)
    (ts : Nat) (options : List String)
    (h : (handle_poll_submission_poll question creator_id t amv hv hvc dl ch idv
        ts).hide_vote_count = true) :
    (handle_poll_submission_poll question creator_id t amv hv hvc dl ch idv
        ts).hide_votes = true ∧
    (create_poll question creator_id options amv hv dl ch idv ts).hide_vote_count
      = false := by
  have hfields := handle_poll_submission_poll_fields question creator_id t amv hv hvc dl ch idv ts
  rw [hfields.1] at h
  rw [hfields.2.1]
  constructor
  · cases hv with
    | true => rfl
    | false =>
      cases hvc with
      | true => simp [normalize_hide_vote_count] at h
      | false => simp [normalize_hide_vote_count] at h
  · rw [create_poll, foldl_add_option_eq]; rfl

/-- Witness for C6 at concrete settings `hide_votes = hide_vote_count = true`. -/
theorem C6_submission_normalizes_witness :
    (handle_poll_submission_poll "Q" "u" "A" false true true none none "p" 0).hide_votes
        = true ∧
      (create_poll "Q" "u" ["A", "B"] false true none none "p" 0).hide_vote_count
        = false := by
  refine C6_submission_normalizes "Q" "u" "A" false true true none none "p" 0 ["A", "B"] ?_
  rw [(handle_poll_submission_poll_fields "Q" "u" "A" false true true none none "p" 0).1]
  rfl

/-- C7: `close_poll` answers "Poll not found" when no poll has the id, "Poll is
already closed" on a closed poll, "Only the poll creator can close this poll"
for a non-creator on an open poll, and otherwise reports success and persists
the poll with `closed = true`; a second close attempt (by anyone) then reports
the already-closed failure and leaves the store unchanged. -/
theorem C7_close_poll_contract (store : List Poll) (pid uid : String) :
    (get_poll_by_id store pid = none →
      close_poll store pid uid = ((false, "Poll not found"), store)) ∧
    (∀ poll, get_poll_by_id store pid = some poll → poll.closed = true →
      close_poll store pid uid = ((false, "Poll is already closed"), store)) ∧
    (∀ poll, get_poll_by_id store pid = some poll → poll.closed = false →
      poll.creator_id ≠ uid →
      close_poll store pid uid
        = ((false, "Only the poll creator can close this poll"), store)) ∧
    (∀ poll, get_poll_by_id store pid = some poll → poll.closed = false →
      poll.creator_id = uid →
      (close_poll store pid uid).1 = (true, "Poll closed successfully") ∧
      get_poll_by_id (close_poll store pid uid).2 pid = some { poll with closed := true } ∧
      ∀ uid2, close_poll (close_poll store pid uid).2 pid uid2
        = ((false, "Poll is already closed"), (close_poll store pid uid).2)) := by
  refine ⟨fun h => ?_, fun poll h hc => ?_, fun poll h hc hne => ?_, fun poll h hc he => ?_⟩
  · simp [close_poll, h]
  · simp [close_poll, h, hc]
  · have : (poll.creator_id == uid) = false := beq_eq_false_iff_ne.mpr hne
    simp [close_poll, h, hc, bne, this]
  · have hbeq : (poll.creator_id == uid) = true := beq_iff_eq.mpr he
    have hcp : close_poll store pid uid
        = ((true, "Poll closed successfully"),
            update_poll store pid { poll with closed := true }) := by
      simp [close_poll, h, hc, bne, hbeq]
    have hup : get_poll_by_id (update_poll store pid { poll with closed := true }) pid
        = some { poll with closed := true } := by
      refine get_poll_by_id_update pid { poll with closed := true } ?_ store poll h
      simpa using get_poll_by_id_beq h
    refine ⟨by rw [hcp], by rw [hcp]; exact hup, fun uid2 => ?_⟩
    rw [hcp]
    simp [close_poll, hup]

/-- Witness for C7: the creator closes a concrete open poll, and a second
attempt reports the already-closed failure without changing the store. -/
theorem C7_close_poll_contract_witness :
    (close_poll [pollFresh] "p1" "c").1 = (true, "Poll closed successfully") ∧
    close_poll (close_poll [pollFresh] "p1" "c").2 "p1" "c"
      = ((false, "Poll is already closed"), (close_poll [pollFresh] "p1" "c").2) := by
  have h := (C7_close_poll_contract [pollFresh] "p1" "c").2.2.2 pollFresh
    (by decide) (by decide) (by decide)
  exact ⟨h.1, h.2.2 "c"⟩

/-- C9: `get_expired_polls` returns exactly the stored polls with a non-null
deadline earlier than now and `closed = false`; concretely, with `now = 100`,
the open poll with deadline 99 is returned and is closed by one sweeper tick,
while the poll with deadline 3700 is not returned and stays open. -/
theorem C9_expiry_query (store : List Poll) (now : Nat) :
    (∀ p, p ∈ get_expired_polls store now ↔
      (p ∈ store ∧ p.closed = false ∧ ∃ d, p.deadline = some d ∧ d < now)) ∧
    get_expired_polls [pollPast, pollFuture] 100 = [pollPast] ∧
    check_expired_polls_tick [pollPast, pollFuture] 100
      = [{ pollPast with closed := true }, pollFuture] ∧
    ({ pollPast with closed := true } : Poll).closed = true ∧
    pollFuture.closed = false := by
  refine ⟨fun p => ?_, by decide, by decide, by decide, by decide⟩
  simp only [get_expired_polls, List.mem_filter, expired_open, Bool.and_eq_true,
    Bool.not_eq_true']
  cases hd : p.deadline with
  | none => simp [hd]
  | some d =>
    simp only [hd, decide_eq_true_eq, Option.some.injEq]
    constructor
    · rintro ⟨hmem, hlt, hcl⟩
      exact ⟨hmem, hcl, d, rfl, hlt⟩
    · rintro ⟨hmem, hcl, d', hd', hlt⟩
      cases hd'
      exact ⟨hmem, hlt, hcl⟩

/-- Witness for C9: the expired poll of the concrete scenario is returned by
the query. -/
theorem C9_expiry_query_witness :
    pollPast ∈ get_expired_polls [pollPast, pollFuture] 100 :=
  ((C9_expiry_query [pollPast, pollFuture] 100).1 pollPast).mpr
    ⟨by decide, by decide, 99, by decide, by decide⟩

/-- C10: when no stored poll has the id, `get_poll_results` returns `none`
(plain Python `None`, not a named failure) and, being a pure read, leaves the
store untouched; for an existing poll it returns the dictionary carrying the
poll's question, creator_id, created_at, closed and hide_votes fields and one
result entry per option. -/
theorem C10_results_lookup (store : List Poll) (pid : String) :
    (get_poll_by_id store pid = none → get_poll_results store pid = none) ∧
    (∀ poll, get_poll_by_id store pid = some poll →
      get_poll_results store pid = some (poll_results poll) ∧
      (poll_results poll).question = poll.question ∧
      (poll_results poll).creator_id = poll.creator_id ∧
      (poll_results poll).created_at = poll.created_at ∧
      (poll_results poll).closed = poll.closed ∧
      (poll_results poll).hide_votes = poll.hide_votes ∧
      (poll_results poll).options.length = poll.options.length) := by
  constructor
  · intro h; simp [get_poll_results, h]
  · intro poll h
    refine ⟨by simp [get_poll_results, h], rfl, rfl, rfl, rfl, rfl, ?_⟩
    simp [poll_results, poll_option_results]

/-- Witness for C10: a missing id gives `none`, an existing id gives the
dictionary. -/
theorem C10_results_lookup_witness :
    get_poll_results [] "nope" = none ∧
    get_poll_results [pollFresh] "p1" = some (poll_results pollFresh) :=
  ⟨(C10_results_lookup [] "nope").1 (by decide),
    ((C10_results_lookup [pollFresh] "p1").2 pollFresh (by decide)).1⟩

/-- C2 (documenting the code bug): in the toggle-law scenario — an open poll,
a valid option, and a voter with no intervening votes — each of the two
consecutive `add_vote` calls, as Python executes it, raises AttributeError at
poll_service.py line 78 instead of returning the Added and then the Removed
outcome; no vote is ever added or removed and the store is unchanged, so the
claimed "Vote added"/"Vote removed" answers are unreachable. -/
theorem C2_toggle_raises_twice (store : List Poll) (pid u n o : String) (poll : Poll)
    (hfind : get_poll_by_id store pid = some poll)
    (hopen : poll.closed = false)
    (hopt : (poll.options.any (fun oo => oo.id == o)) = true) :
    add_vote_exec store pid u n o
      = Except.error "AttributeError: Poll object has no attribute votes" ∧
    add_vote_exec (add_vote_exec_store store pid u n o) pid u n o
      = Except.error "AttributeError: Poll object has no attribute votes" ∧
    add_vote_exec_store (add_vote_exec_store store pid u n o) pid u n o = store := by
  have hattr : "votes" ∉ poll_class_attrs := by decide
  have h1 : add_vote_exec store pid u n o
      = Except.error "AttributeError: Poll object has no attribute votes" := by
    unfold add_vote_exec
    rw [hfind]
    simp [hopen, hopt, hattr]
  have hs : add_vote_exec_store store pid u n o = store :=
    add_vote_exec_store_eq store pid u n o
  refine ⟨h1, ?_, ?_⟩
  · rw [hs]
    exact h1
  · rw [hs]
    exact hs

/-- Witness for C2 on a concrete fresh poll. -/
theorem C2_toggle_raises_twice_witness :
    add_vote_exec [pollFresh] "p1" "u" "n" "o1"
        = Except.error "AttributeError: Poll object has no attribute votes" ∧
      add_vote_exec_store (add_vote_exec_store [pollFresh] "p1" "u" "n" "o1")
          "p1" "u" "n" "o1"
        = [pollFresh] := by
  have h := C2_toggle_raises_twice [pollFresh] "p1" "u" "n" "o1" pollFresh
    (by decide) (by decide) (by decide)
  exact ⟨h.1, h.2.2⟩

/-- C4 counterexample: with `hide_vote_count = true` the results dictionary
still attaches every numeric count — `get_poll_results` never consults
`hide_vote_count` — so "attach the count if and only if hideVoteCount is
false" fails in its "only if" direction. -/
theorem C4_counterexample :
    pollABChidden.hide_vote_count = true ∧
    (poll_results pollABChidden).options.map OptionResult.count = [5, 3, 3] := by
  constructor
  · decide
  · have hl : poll_option_results pollABChidden
        = [{ id := "A", text := "A", count := 3,
             voters := some [("u1", "n"), ("u2", "n"), ("u3", "n")] },
           { id := "B", text := "B", count := 5,
             voters := some [("u1", "n"), ("u2", "n"), ("u3", "n"), ("u4", "n"), ("u5", "n")] },
           { id := "C", text := "C", count := 3,
             voters := some [("u1", "n"), ("u2", "n"), ("u3", "n")] }] := by decide
    simp only [poll_results, hl]
    simp [List.mergeSort]

/-- C4 amended: each result entry's count equals the number of votes for its
option and is always attached (`get_poll_results` is independent of
`hide_vote_count`), while the voters list is attached exactly when
`hide_votes` is false. -/
theorem C4_results_visibility (p : Poll) (b : Bool) (r : OptionResult)
    (hr : r ∈ (poll_results p).options) :
    poll_results { p with hide_vote_count := b } = poll_results p ∧
    r.count = (p.get_votes_for_option r.id).length ∧
    r.voters = (if p.hide_votes = false
      then some ((p.get_votes_for_option r.id).map (fun v => (v.user_id, v.user_name)))
      else none) := by
  refine ⟨rfl, ?_, ?_⟩
  · have hmem : r ∈ poll_option_results p := List.mem_mergeSort.mp hr
    obtain ⟨o, ho, rfl⟩ := List.mem_map.mp hmem
    rfl
  · have hmem : r ∈ poll_option_results p := List.mem_mergeSort.mp hr
    obtain ⟨o, ho, rfl⟩ := List.mem_map.mp hmem
    cases hv : p.hide_votes <;> simp [hv]

/-- Witness for C4 at the concrete A-entry of `pollABC`. -/
theorem C4_results_visibility_witness :
    ({ id := "A", text := "A", count := 3,
        voters := some [("u1", "n"), ("u2", "n"), ("u3", "n")] } : OptionResult).count
      = (pollABC.get_votes_for_option "A").length := by
  have h := C4_results_visibility pollABC true
    { id := "A", text := "A", count := 3,
      voters := some [("u1", "n"), ("u2", "n"), ("u3", "n")] }
    (List.mem_mergeSort.mpr (by decide))
  exact h.2.1

/-- Stability of `mergeSort` expressed through filters: when every pair of
elements kept by the filter is related by `le` both ways, the filtered part of
the sorted output equals the filtered part of the input, i.e. ties stay in
input order. -/
theorem mergeSort_filter_stable {α : Type} (le : α → α → Bool) (f : α → Bool)
    (htrans : ∀ a b c, le a b = true → le b c = true → le a c = true)
    (htotal : ∀ a b, (le a b || le b a) = true)
    (hf : ∀ a b, f a = true → f b = true → le a b = true)
    (l : List α) : (l.mergeSort le).filter f = l.filter f := by
  have hpair : (l.filter f).Pairwise (fun a b => le a b = true) := by
    refine List.pairwise_of_forall_mem_list (fun a ha b hb => ?_)
    exact hf a b (List.mem_filter.mp ha).2 (List.mem_filter.mp hb).2
  have hsub : (l.filter f).Sublist (l.mergeSort le) :=
    List.sublist_mergeSort htrans htotal hpair (List.filter_sublist l)
  have hsub2 : ((l.filter f).filter f).Sublist ((l.mergeSort le).filter f) :=
    List.Sublist.filter f hsub
  have hself : (l.filter f).filter f = l.filter f := by
    rw [List.filter_filter]
    simp
  rw [hself] at hsub2
  have hlen : ((l.mergeSort le).filter f).length = (l.filter f).length := by
    rw [← List.countP_eq_length_filter, ← List.countP_eq_length_filter]
    exact List.Perm.countP_eq f (List.mergeSort_perm l le)
  exact (List.Sublist.eq_of_length hsub2 hlen.symm).symm

/-- C8: the results options are sorted by descending vote count; the sort is
stable — the entries holding any fixed count keep their original
option-definition order — and the concrete scenario with options A (3 votes),
B (5 votes), C (3 votes) defined in order [A, B, C] yields [B, A, C]. -/
theorem C8_results_sorted (p : Poll) (c : Nat) :
    ((poll_results p).options).Pairwise (fun a b => b.count ≤ a.count) ∧
    ((poll_results p).options).filter (fun r => r.count == c)
      = (poll_option_results p).filter (fun r => r.count == c) ∧
    (poll_results pollABC).options.map OptionResult.id = ["B", "A", "C"] := by
  have htrans : ∀ a b cc : OptionResult, (decide (b.count ≤ a.count)) = true →
      (decide (cc.count ≤ b.count)) = true → (decide (cc.count ≤ a.count)) = true := by
    intro a b cc h1 h2
    simp only [decide_eq_true_eq] at h1 h2 ⊢
    omega
  have htotal : ∀ a b : OptionResult,
      ((decide (b.count ≤ a.count)) || (decide (a.count ≤ b.count))) = true := by
    intro a b
    rcases Nat.le_total b.count a.count with h | h <;> simp [h]
  refine ⟨?_, ?_, ?_⟩
  · have h := List.sorted_mergeSort htrans htotal (poll_option_results p)
    exact h.imp (fun hab => of_decide_eq_true hab)
  · refine mergeSort_filter_stable _ _ htrans htotal (fun a b ha hb => ?_) _
    have ha' : a.count = c := by simpa using ha
    have hb' : b.count = c := by simpa using hb
    simp [ha', hb']
  · have hl : poll_option_results pollABC
        = [{ id := "A", text := "A", count := 3,
             voters := some [("u1", "n"), ("u2", "n"), ("u3", "n")] },
           { id := "B", text := "B", count := 5,
             voters := some [("u1", "n"), ("u2", "n"), ("u3", "n"), ("u4", "n"), ("u5", "n")] },
           { id := "C", text := "C", count := 3,
             voters := some [("u1", "n"), ("u2", "n"), ("u3", "n")] }] := by decide
    simp only [poll_results, hl]
    simp [List.mergeSort]

end SuperSimplePoll
